import Mathlib

/-!
Verification of the wallarm api-firewall validating proxy pipeline
(`internal/platform/validator/validate_response.go` and the `handlers`
half of that file: `getValidationHeader`, `performProxy`,
`openapiWafHandler`).

Shallow embedding conventions:
* byte strings are `List Nat`;
* Go `nil`-able pointers are `Option`;
* Go errors are `Except` / `Option` values;
* mutation of the `ResponseValidationInput` (the body handle swap) is
  state passing: `ValidateResponse` returns the possibly updated input
  next to its result;
* collaborators whose code is not part of the analysed source
  (`decodeBody`, the request validator, the backend HTTP client, the
  shadow-API checker, the pools) enter as explicit oracle parameters,
  so theorems quantify over their behaviour.
-/

namespace ApiFirewall

/-- Byte strings (Go `[]byte`). -/
abbrev Bytes := List Nat

/-- Generic decoded value tree handed to schema validation
(the normalized maps/lists/scalars structure of the body decoder). -/
inductive JsonValue where
  | null : JsonValue
  | bool : Bool → JsonValue
  | num : Int → JsonValue
  | str : String → JsonValue
  | arr : List JsonValue → JsonValue
  | obj : List (String × JsonValue) → JsonValue

/-- A compiled schema (`openapi3.Schema`).  Its whole role in
`ValidateResponse` is the `VisitJSON` call, embedded as a function from
the decoded value to an optional validation error message. -/
structure Schema where
  visitJSON : JsonValue → Option String

/-- `openapi3.MediaType`: the per-content-type entry of a response,
carrying an optional schema reference (`contentType.Schema`, a
`nil`-able pointer). The encoding table is consumed only by the
`decodeBody` oracle and is not represented separately. -/
structure MediaType where
  schema : Option Schema

/-- `openapi3.Response.Content`: content keyed by media type. -/
abbrev Content := List (String × MediaType)

/-- `openapi3.Response`. -/
structure Response where
  content : Content

/-- `openapi3.ResponseRef`: a reference whose `Value` may be unresolved
(`nil`). -/
structure ResponseRef where
  value : Option Response

/-- `openapi3.Responses`: map from status-code string (or the literal
key "default") to a response reference. -/
abbrev Responses := List (String × ResponseRef)

/-- `openapi3.Operation`: only the `Responses` field is read by the
response validator. -/
structure Operation where
  responses : Responses

/-- `routers.Route`: the matched route; only `Operation` is read. -/
structure Route where
  operation : Operation

/-- The converted `http.Request`; `ValidateResponse` reads only its
method. -/
structure Request where
  method : String

/-- `openapi3filter.RequestValidationInput`, restricted to the fields
`ValidateResponse` reads. -/
structure RequestValidationInput where
  request : Request
  route : Route

/-- The `io.ReadCloser` body handle: reading it yields either the byte
string or a read error (`io.ReadAll` outcome). -/
structure BodyReader where
  readResult : Except String Bytes

/-- `openapi3filter.Options` (the fields used on the response path). -/
structure Options where
  excludeRequestBody : Bool
  excludeResponseBody : Bool
  includeResponseStatus : Bool
  multiError : Bool
deriving DecidableEq

/-- `openapi3filter.DefaultOptions`: the zero value, all flags false. -/
def DefaultOptions : Options := ⟨false, false, false, false⟩

/-- `openapi3filter.ResponseValidationInput`.  `body` is the `nil`-able
`Body` field; `options` is the `nil`-able `Options` pointer. -/
structure ResponseValidationInput where
  requestValidationInput : RequestValidationInput
  status : Nat
  header : List (String × String)
  body : Option BodyReader
  options : Option Options

/-- `openapi3filter.ResponseError`, restricted to the reason and the
wrapped lower-level error (the `Input` back-pointer is the state-passed
input itself). -/
structure ResponseError where
  reason : String
  err : Option String
deriving DecidableEq

/-- Header lookup, `http.Header.Get` (keys assumed already in canonical
form; canonicalization is not modelled). Missing key yields "". -/
def headerGet (h : List (String × String)) (k : String) : String :=
  match h.find? (fun p => p.1 = k) with
  | some p => p.2
  | none => ""

/-- Modelled from the spec: the `headerCT` constant of the validator
package (declared outside the analysed file), the Content-Type header
name. -/
def headerCT : String := "Content-Type"

/-- `Responses.Get(status)`: lookup of the decimal string of the status
code. -/
def responsesGet (rs : Responses) (status : Nat) : Option ResponseRef :=
  match rs.find? (fun p => p.1 = toString status) with
  | some p => some p.2
  | none => none

/-- `Responses.Default()`: lookup of the literal key "default". -/
def responsesDefault (rs : Responses) : Option ResponseRef :=
  match rs.find? (fun p => p.1 = "default") with
  | some p => some p.2
  | none => none

/-- The characters before the first semicolon (the first element of
`strings.Split(s, ";")`), written as structural recursion so that it
evaluates definitionally. -/
def untilSemicolon : List Char → List Char
  | [] => []
  | c :: cs => if c = ';' then [] else c :: untilSemicolon cs

/-- ASCII whitespace as trimmed from media types. -/
def isSpaceChar (c : Char) : Bool := c = ' ' ∨ c = '\t' ∨ c = '\n' ∨ c = '\r'

/-- Trimming whitespace from both ends of a character list. -/
def trimChars (l : List Char) : List Char :=
  ((l.dropWhile isSpaceChar).reverse.dropWhile isSpaceChar).reverse

/-- Modelled from the spec: content-type normalization used by the
`Content.Get` matching (case-insensitive, ignoring the parameter suffix
after a semicolon, whitespace-trimmed). -/
def baseMediaType (mime : String) : String :=
  ⟨(trimChars (untilSemicolon mime.data)).map Char.toLower⟩

/-- Modelled from the spec: `Content.Get` on the normalized media
type. -/
def contentGet (c : Content) (mime : String) : Option MediaType :=
  match c.find? (fun p => baseMediaType p.1 = baseMediaType mime) with
  | some p => some p.2
  | none => none

/-- Reading the body handle (`io.ReadAll(body)`); a `nil` handle cannot
be read. -/
def bodyRead : Option BodyReader → Except String Bytes
  | some r => r.readResult
  | none => Except.error "nil body"

/-- The decode oracle standing for `decodeBody` (declared outside the
analysed file): raw bytes, headers and the content-type schema to a
decoded value or a decode error.  The fastjson-to-map conversion
(`convertToMap`) is folded into the oracle result. -/
abbrev DecodeBody := Bytes → List (String × String) → Schema → Except String JsonValue

/-- The two-step response lookup of `ValidateResponse` (source lines
49-52): the reference for the exact status, with fallback to the
default reference when that is `nil`. -/
def responsesLookup (rs : Responses) (status : Nat) : Option ResponseRef :=
  match responsesGet rs status with
  | some r => some r
  | none => responsesDefault rs

/-- The tail of `ValidateResponse` from the point where the response
reference has been resolved (source lines 53-144): reference and value
checks, body-exclusion flags, content-type lookup, the body read with
the handle swap, decode and schema visit. -/
def validateRespTail (decode : DecodeBody) (input : ResponseValidationInput)
    (options : Options) (responseRef : Option ResponseRef) :
    Except ResponseError Unit × ResponseValidationInput :=
  match responseRef with
  | none =>
    -- By default, status that is not documented is allowed.
    if !options.includeResponseStatus then
      (Except.ok (), input)
    else
      (Except.error ⟨"status is not supported", none⟩, input)
  | some rref =>
    match rref.value with
    | none => (Except.error ⟨"response has not been resolved", none⟩, input)
    | some response =>
      if options.excludeResponseBody then
        -- A user turned off validation of a response body.
        (Except.ok (), input)
      else
      let content := response.content
      if content.length = 0 ∨ options.excludeResponseBody then
        -- An operation does not contain a validation schema for responses
        -- with this status code.
        (Except.ok (), input)
      else
      let inputMIME := headerGet input.header headerCT
      match contentGet content inputMIME with
      | none =>
        (Except.error
          ⟨"response header Content-Type has unexpected value: \"" ++ inputMIME ++ "\"", none⟩,
         input)
      | some contentType =>
        match contentType.schema with
        | none => (Except.ok (), input)
        | some schema =>
          -- Read the response body; the input keeps no body handle while
          -- the stream is being consumed.
          let body := input.body
          let input1 : ResponseValidationInput := { input with body := none }
          match bodyRead body with
          | Except.error e =>
            (Except.error ⟨"failed to read response body", some e⟩, input1)
          | Except.ok data =>
            -- Put the data back into the response (SetBodyBytes).
            let input2 : ResponseValidationInput :=
              { input1 with body := some ⟨Except.ok data⟩ }
            match decode data input2.header schema with
            | Except.error e =>
              (Except.error ⟨"failed to decode response body", some e⟩, input2)
            | Except.ok value =>
              match schema.visitJSON value with
              | some e =>
                (Except.error ⟨"response body doesn't match the schema", some e⟩, input2)
              | none => (Except.ok (), input2)

/-- `ValidateResponse` (source lines 21-145): validates the response
validation input against the loaded schema.  The early outs (HEAD
requests, the never-validated status codes, an empty response map) all
return success leaving the input untouched; otherwise the response
reference for the status is resolved, with fallback to the default
reference, and the tail runs. -/
def ValidateResponse (decode : DecodeBody) (input : ResponseValidationInput) :
    Except ResponseError Unit × ResponseValidationInput :=
  let req := input.requestValidationInput.request
  if req.method = "HEAD" then
    (Except.ok (), input)
  else
  let status := input.status
  -- These status codes will never be validated.
  if status = 304 ∨ status = 308 ∨ status = 307 ∨ status = 301 then
    (Except.ok (), input)
  else
  let route := input.requestValidationInput.route
  let options := match input.options with
    | some o => o
    | none => DefaultOptions
  -- Find input for the current status
  let responses := route.operation.responses
  if responses.length = 0 then
    (Except.ok (), input)
  else
  validateRespTail decode input options (responsesLookup responses status)

/-- A named parameter carried by a request validation error
(`openapi3.Parameter`, restricted to its name). -/
structure Parameter where
  name : String

/-- A wrapped lower-level error as inspected by the diagnostic encoder:
either an `openapi3.SchemaError` (whose `Reason` can be read) or any
other error value. -/
inductive GoError where
  | schemaError (reason : String)
  | otherGoError (msg : String)

/-- The closed union of error shapes dispatched on by
`getValidationHeader` (the Go type switch over the dynamic error
value). -/
inductive ValidationError where
  | responseError (reason : String) (err : Option String)
  | requestError (reason : String) (parameter : Option Parameter)
      (hasRequestBody : Bool) (err : Option GoError)
  | securityRequirementsError (securityRequirements : List (List String))
      (errors : List String)
  | otherError (msg : String)

/-- `strings.Split(ct, ";")[0]`: the content type up to the first
semicolon. -/
def splitContentType (ct : String) : String :=
  ⟨untilSemicolon ct.data⟩

/-- `strings.TrimSuffix(s, ",")`. -/
def trimTrailingComma (s : String) : String :=
  if s.data.getLast? = some ',' then ⟨s.data.dropLast⟩ else s

/-- `getValidationHeader` (source lines 186-252): encodes a validation
error into the APIFW-Validation-Status header value.  The three context
reads from the request context (`ctx.Response.StatusCode()`,
`ctx.Response.Header.ContentType()`, `ctx.Request.Header.ContentType()`)
are passed as the first three arguments. -/
def getValidationHeader (respStatus : Nat) (respContentType reqContentType : String)
    (err : ValidationError) : Option String :=
  match err with
  | ValidationError.responseError reason _ =>
    let r := if reason ≠ "" then reason else "unknown"
    let id := "response-" ++ toString respStatus ++ "-" ++ splitContentType respContentType
    some (id ++ ":" ++ r ++ ":response")
  | ValidationError.requestError reason parameter hasRequestBody werr =>
    let r := if reason ≠ "" then reason else "unknown"
    match parameter with
    | some p =>
      -- paramName starts as the literal "request-parameter" and is
      -- replaced by the parameter name only when the top-level reason
      -- is empty (the schema-error fallback branch).
      if reason = "" then
        let r2 := match werr with
          | some (GoError.schemaError sr) => if sr ≠ "" then sr else r
          | _ => r
        some ("request-parameter:" ++ r2 ++ ":" ++ p.name)
      else
        some ("request-parameter:" ++ r ++ ":request-parameter")
    | none =>
      if hasRequestBody then
        let id := "request-body-" ++ splitContentType reqContentType
        some (id ++ ":" ++ r ++ ":request-body")
      else
        none
  | ValidationError.securityRequirementsError reqs errs =>
    -- Go iterates requirement maps; modelled with a fixed list order.
    let secSchemeName :=
      trimTrailingComma (String.join (reqs.map (fun scheme =>
        String.join (scheme.map (fun key => key ++ ",")))))
    let secErrors := trimTrailingComma (String.join (errs.map (fun e => e ++ ",")))
    some ("security-requirements-" ++ secSchemeName ++ ":" ++ secErrors ++ ":" ++ secSchemeName)
  | ValidationError.otherError _ => none

/-- `web.ValidationDisable` / `web.ValidationBlock` / `web.ValidationLog`. -/
inductive ValidationMode where
  | disable : ValidationMode
  | block : ValidationMode
  | log : ValidationMode
deriving DecidableEq

/-- `config.APIFWConfiguration`, restricted to the fields the handler
reads. -/
structure APIFWConfiguration where
  requestValidation : ValidationMode
  responseValidation : ValidationMode
  addValidationStatusHeader : Bool
  customBlockStatusCode : Nat

/-- The inbound fasthttp request (method and headers; the body is only
seen by the request-validation oracle). -/
structure HttpRequest where
  method : String
  headers : List (String × String)

/-- An HTTP response as observed by the client (status, headers,
body). -/
structure HttpResponse where
  status : Nat
  headers : List (String × String)
  body : Bytes
deriving DecidableEq

/-- The transport errors distinguished by `performProxy`
(`fasthttp.ErrDialTimeout`, `fasthttp.ErrNoFreeConns`, anything
else). -/
inductive TransportError where
  | errDialTimeout : TransportError
  | errNoFreeConns : TransportError
  | otherTransport (msg : String) : TransportError
deriving DecidableEq

/-- Modelled from the spec: `web.ValidationStatus`, the name of the
diagnostic response header. -/
def ValidationStatus : String := "APIFW-Validation-Status"

/-- Modelled from the spec: `web.RespondError` writes the given status
code to the client response, attaches the diagnostic header when one is
supplied, and carries no body (violation detail is never echoed to the
client); it is terminal for the request. -/
def respondError (statusCode : Nat) (validationHeader : Option String) : HttpResponse :=
  { status := statusCode
  , headers :=
      match validationHeader with
      | some vh => [(ValidationStatus, vh)]
      | none => []
  , body := [] }

/-- Result of `performProxy`: the client-visible response written so
far and whether the proxy step reported an error (a non-nil return,
terminal for the handler). -/
structure ProxyResult where
  response : HttpResponse
  err : Bool
deriving DecidableEq

/-- `performProxy` (source lines 255-272): runs `client.Do`; on success
the backend response stands, on failure the transport error is
classified by cause into 504 (dial timeout), 503 (no free connections)
or 502 (any other transport error) and the handler is told to stop. -/
def performProxy (backend : Except TransportError HttpResponse) : ProxyResult :=
  match backend with
  | Except.ok resp => ⟨resp, false⟩
  | Except.error TransportError.errDialTimeout => ⟨respondError 504 none, true⟩
  | Except.error TransportError.errNoFreeConns => ⟨respondError 503 none, true⟩
  | Except.error (TransportError.otherTransport _) => ⟨respondError 502 none, true⟩

/-- The oracle environment of one handler run: outcomes of the
collaborators the handler calls out to. -/
structure HandlerEnv where
  poolGetOk : Bool
  convertRequestOk : Bool
  requestValidationError : Option ValidationError
  backend : Except TransportError HttpResponse
  shadowCheckError : Option String
  decode : DecodeBody

/-- Observable outcome of one handler run: the response delivered to
the client plus which steps ran. -/
structure HandlerOutcome where
  clientResponse : HttpResponse
  proxied : Bool
  requestValidated : Bool
  responseValidated : Bool
  shadowChecked : Bool
  diagnosticEncoded : Bool
  requestErrorLogged : Bool
  responseErrorLogged : Bool
  shadowErrorLogged : Bool
deriving DecidableEq

/-- An outcome in which nothing has run yet. -/
def baseOutcome (resp : HttpResponse) : HandlerOutcome :=
  ⟨resp, false, false, false, false, false, false, false, false⟩

/-- `http.Header.Set` on the association-list model (replace an
existing key or append; canonicalization of keys is not modelled). -/
def headerSet (h : List (String × String)) (k v : String) : List (String × String) :=
  if h.any (fun p => p.1 = k) then
    h.map (fun p => if p.1 = k then (k, v) else p)
  else
    h ++ [(k, v)]

/-- Source lines 424-430: the header table passed to response
validation, built by visiting the request headers and `Set`-ting each
into a fresh `http.Header`. -/
def buildRespHeader (reqHeaders : List (String × String)) : List (String × String) :=
  reqHeaders.foldl (fun acc kv => headerSet acc kv.1 kv.2) []

/-- The options literal the handler passes to response validation
(source lines 437-443): `IncludeResponseStatus` is set. -/
def pipelineOptions : Options :=
  { excludeRequestBody := false
  , excludeResponseBody := false
  , includeResponseStatus := true
  , multiError := false }

/-- The `ResponseValidationInput` the handler builds after proxying
(source lines 432-444): status and body from the proxied response, the
header table from the request headers, pipeline options, and a body
reader over the in-memory response bytes (its read always succeeds). -/
def mkRespInput (req : HttpRequest) (route : Route) (resp : HttpResponse) :
    ResponseValidationInput :=
  { requestValidationInput := { request := ⟨req.method⟩, route := route }
  , status := resp.status
  , header := buildRespHeader req.headers
  , body := some ⟨Except.ok resp.body⟩
  , options := some pipelineOptions }

/-- fasthttp defaults for a response no handler has written yet, read
by the diagnostic encoder at request-validation time. -/
def defaultRespStatus : Nat := 200

/-- Default response content type of an unwritten fasthttp response. -/
def defaultRespContentType : String := "text/plain; charset=utf-8"

/-- The proxy-then-response-validation tail of the handler (source
lines 419-475), shared by every request-validation outcome that lets
the request through.  `reqValidated`/`reqErrLogged` record whether the
request-validation step ran and logged a failure.  A `none` result
models the nil-route dereference Go would hit if response validation
ran without a matched route (unreachable from the handler entry). -/
def proxyAndValidate (cfg : APIFWConfiguration) (route : Option Route) (env : HandlerEnv)
    (req : HttpRequest) (reqValidated reqErrLogged : Bool) : Option HandlerOutcome :=
  let pr := performProxy env.backend
  if pr.err then
    some { baseOutcome pr.response with
           proxied := true, requestValidated := reqValidated,
           requestErrorLogged := reqErrLogged }
  else
    match cfg.responseValidation with
    | ValidationMode.disable =>
      some { baseOutcome pr.response with
             proxied := true, requestValidated := reqValidated,
             requestErrorLogged := reqErrLogged }
    | ValidationMode.block =>
      match route with
      | none => none
      | some r =>
        match (ValidateResponse env.decode (mkRespInput req r pr.response)).1 with
        | Except.ok _ =>
          some { baseOutcome pr.response with
                 proxied := true, requestValidated := reqValidated,
                 requestErrorLogged := reqErrLogged, responseValidated := true }
        | Except.error e =>
          if cfg.addValidationStatusHeader then
            match getValidationHeader pr.response.status
                (headerGet pr.response.headers headerCT)
                (headerGet req.headers headerCT)
                (ValidationError.responseError e.reason e.err) with
            | some vh =>
              some { baseOutcome (respondError cfg.customBlockStatusCode (some vh)) with
                     proxied := true, requestValidated := reqValidated,
                     requestErrorLogged := reqErrLogged, responseValidated := true,
                     responseErrorLogged := true, diagnosticEncoded := true }
            | none =>
              some { baseOutcome (respondError cfg.customBlockStatusCode none) with
                     proxied := true, requestValidated := reqValidated,
                     requestErrorLogged := reqErrLogged, responseValidated := true,
                     responseErrorLogged := true, diagnosticEncoded := true }
          else
            some { baseOutcome (respondError cfg.customBlockStatusCode none) with
                   proxied := true, requestValidated := reqValidated,
                   requestErrorLogged := reqErrLogged, responseValidated := true,
                   responseErrorLogged := true }
    | ValidationMode.log =>
      match route with
      | none => none
      | some r =>
        match (ValidateResponse env.decode (mkRespInput req r pr.response)).1 with
        | Except.ok _ =>
          some { baseOutcome pr.response with
                 proxied := true, requestValidated := reqValidated,
                 requestErrorLogged := reqErrLogged, responseValidated := true }
        | Except.error _ =>
          some { baseOutcome pr.response with
                 proxied := true, requestValidated := reqValidated,
                 requestErrorLogged := reqErrLogged, responseValidated := true,
                 responseErrorLogged := true }

/-- The main pipeline after route dispatch (source lines 315-475):
request conversion, the request-validation mode switch, then proxy and
response validation. -/
def pipelineRest (cfg : APIFWConfiguration) (route : Option Route) (env : HandlerEnv)
    (req : HttpRequest) : Option HandlerOutcome :=
  if ¬ env.convertRequestOk then
    some (baseOutcome (respondError 400 none))
  else
    match cfg.requestValidation, env.requestValidationError with
    | ValidationMode.block, some e =>
      if cfg.addValidationStatusHeader then
        match getValidationHeader defaultRespStatus defaultRespContentType
            (headerGet req.headers headerCT) e with
        | some vh =>
          some { baseOutcome (respondError cfg.customBlockStatusCode (some vh)) with
                 requestValidated := true, requestErrorLogged := true,
                 diagnosticEncoded := true }
        | none =>
          some { baseOutcome (respondError cfg.customBlockStatusCode none) with
                 requestValidated := true, requestErrorLogged := true,
                 diagnosticEncoded := true }
      else
        some { baseOutcome (respondError cfg.customBlockStatusCode none) with
               requestValidated := true, requestErrorLogged := true }
    | ValidationMode.block, none =>
      proxyAndValidate cfg route env req true false
    | ValidationMode.log, some _ =>
      proxyAndValidate cfg route env req true true
    | ValidationMode.log, none =>
      proxyAndValidate cfg route env req true false
    | ValidationMode.disable, _ =>
      proxyAndValidate cfg route env req false false

/-- `openapiWafHandler` (source lines 274-476): pool acquisition, the
both-disabled bare-proxy branch, unmatched-route policy, then the main
pipeline. -/
def openapiWafHandler (cfg : APIFWConfiguration) (route : Option Route) (env : HandlerEnv)
    (req : HttpRequest) : Option HandlerOutcome :=
  if ¬ env.poolGetOk then
    some (baseOutcome (respondError 503 none))
  else if cfg.requestValidation = ValidationMode.disable ∧
      cfg.responseValidation = ValidationMode.disable then
    -- Proxy request if APIFW is disabled
    let pr := performProxy env.backend
    some { baseOutcome pr.response with proxied := true }
  else
    match route with
    | none =>
      if cfg.requestValidation = ValidationMode.block ∨
          cfg.responseValidation = ValidationMode.block then
        if cfg.addValidationStatusHeader then
          some (baseOutcome (respondError cfg.customBlockStatusCode
            (some "request: route not found")))
        else
          some (baseOutcome (respondError cfg.customBlockStatusCode none))
      else if cfg.requestValidation = ValidationMode.log ∨
          cfg.responseValidation = ValidationMode.log then
        -- proxy first, then the shadow-API check; a check error is only
        -- logged
        let pr := performProxy env.backend
        some { baseOutcome pr.response with
               proxied := true, shadowChecked := true,
               shadowErrorLogged := env.shadowCheckError.isSome }
      else
        -- both modes Disabled: already caught by the bare-proxy branch,
        -- so this fall-through into the pipeline with a nil route is
        -- unreachable
        pipelineRest cfg none env req
    | some _ =>
      pipelineRest cfg route env req

/-! ### Concrete fixtures used by witnesses and counterexamples -/

/-- A schema accepting every value. -/
def demoSchema : Schema := ⟨fun _ => none⟩

/-- A decode oracle that always succeeds. -/
def demoDecode : DecodeBody := fun _ _ _ => Except.ok JsonValue.null

/-- A route documenting a JSON response for status 200 only. -/
def demoRoute200 : Route :=
  ⟨⟨[("200", ⟨some ⟨[("application/json", ⟨some demoSchema⟩)]⟩⟩)]⟩⟩

/-- A route documenting a response for status 500 only (no default). -/
def demoRoute500 : Route :=
  ⟨⟨[("500", ⟨some ⟨[("application/json", ⟨some demoSchema⟩)]⟩⟩)]⟩⟩

/-- A validation input for a HEAD request. -/
def demoHeadInput : ResponseValidationInput :=
  { requestValidationInput := { request := ⟨"HEAD"⟩, route := demoRoute200 }
  , status := 200
  , header := [("Content-Type", "application/json")]
  , body := some ⟨Except.ok [123]⟩
  , options := none }

/-- A GET validation input whose status has no documented response and
no default fallback. -/
def demoNoEntryInput : ResponseValidationInput :=
  { requestValidationInput := { request := ⟨"GET"⟩, route := demoRoute500 }
  , status := 200
  , header := [("Content-Type", "application/json")]
  , body := some ⟨Except.ok [123]⟩
  , options := none }

/-- A GET validation input that reaches the body read and reads
successfully. -/
def demoBodyInput : ResponseValidationInput :=
  { requestValidationInput := { request := ⟨"GET"⟩, route := demoRoute200 }
  , status := 200
  , header := [("Content-Type", "application/json")]
  , body := some ⟨Except.ok [123]⟩
  , options := none }

/-- A GET validation input that reaches the body read with a failing
reader. -/
def demoBrokenBodyInput : ResponseValidationInput :=
  { requestValidationInput := { request := ⟨"GET"⟩, route := demoRoute200 }
  , status := 200
  , header := [("Content-Type", "application/json")]
  , body := some ⟨Except.error "boom"⟩
  , options := none }

/-! ### Claim theorems -/

/-- Claim C3: for every validation input whose request method is HEAD,
and for every input whose response status is 301, 304, 307 or 308,
`ValidateResponse` returns success immediately and leaves the input
(body included) untouched, for every decode oracle, schema and option
set. -/
theorem validateResponse_head_and_redirects_skip (decode : DecodeBody)
    (input : ResponseValidationInput)
    (h : input.requestValidationInput.request.method = "HEAD" ∨
         input.status = 301 ∨ input.status = 304 ∨ input.status = 307 ∨ input.status = 308) :
    ValidateResponse decode input = (Except.ok (), input) := by
  unfold ValidateResponse
  by_cases hm : input.requestValidationInput.request.method = "HEAD"
  · simp [hm]
  · have hs : input.status = 304 ∨ input.status = 308 ∨ input.status = 307 ∨
        input.status = 301 := by
      rcases h with h | h | h | h | h
      · exact absurd h hm
      · exact Or.inr (Or.inr (Or.inr h))
      · exact Or.inl h
      · exact Or.inr (Or.inr (Or.inl h))
      · exact Or.inr (Or.inl h)
    simp [hm, hs]

theorem validateResponse_head_and_redirects_skip_witness :
    (demoHeadInput.requestValidationInput.request.method = "HEAD" ∨
     demoHeadInput.status = 301 ∨ demoHeadInput.status = 304 ∨
     demoHeadInput.status = 307 ∨ demoHeadInput.status = 308) ∧
    ValidateResponse demoDecode demoHeadInput = (Except.ok (), demoHeadInput) :=
  ⟨Or.inl rfl,
   validateResponse_head_and_redirects_skip demoDecode demoHeadInput (Or.inl rfl)⟩

/-- Claim C7: when the route declares a non-empty response set without
an entry for the exact status, `ValidateResponse` continues with the
default response entry; when the default is also absent it succeeds
for an unset include-response-status option and fails with a response
error when that option is set. -/
theorem validateResponse_default_fallback (decode : DecodeBody)
    (input : ResponseValidationInput)
    (hm : input.requestValidationInput.request.method ≠ "HEAD")
    (hs : ¬(input.status = 304 ∨ input.status = 308 ∨ input.status = 307 ∨
        input.status = 301))
    (hne : input.requestValidationInput.route.operation.responses.length ≠ 0)
    (hget : responsesGet input.requestValidationInput.route.operation.responses
        input.status = none) :
    ValidateResponse decode input =
      validateRespTail decode input (input.options.getD DefaultOptions)
        (responsesDefault input.requestValidationInput.route.operation.responses) ∧
    (responsesDefault input.requestValidationInput.route.operation.responses = none →
      ValidateResponse decode input =
        (if (input.options.getD DefaultOptions).includeResponseStatus then
          (Except.error ⟨"status is not supported", none⟩, input)
         else
          (Except.ok (), input))) := by
  have hmain : ValidateResponse decode input =
      validateRespTail decode input (input.options.getD DefaultOptions)
        (responsesDefault input.requestValidationInput.route.operation.responses) := by
    cases ho : input.options <;>
      simp [ValidateResponse, responsesLookup, hm, hs, hne, hget, ho]
  refine ⟨hmain, fun hdef => ?_⟩
  rw [hmain, hdef]
  unfold validateRespTail
  by_cases hi : (input.options.getD DefaultOptions).includeResponseStatus <;> simp [hi]

theorem validateResponse_default_fallback_witness :
    (demoNoEntryInput.requestValidationInput.request.method ≠ "HEAD") ∧
    (¬(demoNoEntryInput.status = 304 ∨ demoNoEntryInput.status = 308 ∨
       demoNoEntryInput.status = 307 ∨ demoNoEntryInput.status = 301)) ∧
    (demoNoEntryInput.requestValidationInput.route.operation.responses.length ≠ 0) ∧
    (responsesGet demoNoEntryInput.requestValidationInput.route.operation.responses
      demoNoEntryInput.status = none) ∧
    ValidateResponse demoDecode demoNoEntryInput = (Except.ok (), demoNoEntryInput) :=
  ⟨by decide, by decide, by decide, rfl, by
    have h := (validateResponse_default_fallback demoDecode demoNoEntryInput
      (by decide) (by decide) (by decide) rfl).2 rfl
    simpa using h⟩

/-- Helper: on every path of the validation tail, if the incoming body
handle reads to `data` then the outgoing body handle still reads to
`data` (either untouched, or replaced by the in-memory copy of the same
bytes). -/
theorem validateRespTail_body_restored (decode : DecodeBody)
    (input : ResponseValidationInput) (opts : Options) (ref : Option ResponseRef)
    (data : Bytes) (h : bodyRead input.body = Except.ok data) :
    bodyRead (validateRespTail decode input opts ref).2.body = Except.ok data := by
  rcases ref with _ | rref
  · by_cases hi : opts.includeResponseStatus <;> simp [validateRespTail, hi, h]
  · rcases hv : rref.value with _ | response
    · simp [validateRespTail, hv, h]
    · by_cases hx : opts.excludeResponseBody
      · simp [validateRespTail, hv, hx, h]
      · by_cases hc : response.content.length = 0
        · simp [validateRespTail, hv, hx, hc, h]
        · rcases hct : contentGet response.content (headerGet input.header headerCT)
            with _ | mt
          · simp [validateRespTail, hv, hx, hc, hct, h]
          · rcases hsch : mt.schema with _ | schema
            · simp [validateRespTail, hv, hx, hc, hct, hsch, h]
            · rcases hbody : input.body with _ | r
              · rw [hbody] at h
                simp [bodyRead] at h
              · have hr : r.readResult = Except.ok data := by
                  rw [hbody] at h
                  simpa [bodyRead] using h
                rcases hdec : decode data input.header schema with e | value
                · simp [validateRespTail, hv, hx, hc, hct, hsch, hbody, hr, hdec, bodyRead]
                · rcases hvis : schema.visitJSON value with _ | e2 <;>
                    simp [validateRespTail, hv, hx, hc, hct, hsch, hbody, hr, hdec, hvis,
                      bodyRead]

/-- Claim C1: whenever the body handle of a response validation input
reads successfully to some byte string, the input returned by
`ValidateResponse` carries a body handle that reads to the identical
byte string, whatever the decode oracle, schemas, options and
validation outcome. -/
theorem validateResponse_body_restored (decode : DecodeBody)
    (input : ResponseValidationInput) (data : Bytes)
    (h : bodyRead input.body = Except.ok data) :
    bodyRead (ValidateResponse decode input).2.body = Except.ok data := by
  by_cases hm : input.requestValidationInput.request.method = "HEAD"
  · simp [ValidateResponse, hm, h]
  · by_cases hs : input.status = 304 ∨ input.status = 308 ∨ input.status = 307 ∨
        input.status = 301
    · simp [ValidateResponse, hm, hs, h]
    · by_cases hne : input.requestValidationInput.route.operation.responses.length = 0
      · cases ho : input.options <;> simp [ValidateResponse, hm, hs, hne, ho, h]
      · cases ho : input.options with
        | none =>
          simp [ValidateResponse, hm, hs, hne, ho]
          exact validateRespTail_body_restored _ _ _ _ _ h
        | some o =>
          simp [ValidateResponse, hm, hs, hne, ho]
          exact validateRespTail_body_restored _ _ _ _ _ h

theorem validateResponse_body_restored_witness :
    bodyRead demoBodyInput.body = Except.ok [123] ∧
    bodyRead (ValidateResponse demoDecode demoBodyInput).2.body = Except.ok [123] :=
  ⟨rfl, validateResponse_body_restored demoDecode demoBodyInput [123] rfl⟩

/-- Claim C10: when a response validation call reaches the body read
and the read fails, `ValidateResponse` returns a response error with
reason "failed to read response body" and the returned input carries no
body handle at all: the bytes are not restored on this path. -/
theorem validateResponse_read_failure (decode : DecodeBody)
    (input : ResponseValidationInput) (rref : ResponseRef) (response : Response)
    (mt : MediaType) (schema : Schema) (e : String)
    (hm : input.requestValidationInput.request.method ≠ "HEAD")
    (hs : ¬(input.status = 304 ∨ input.status = 308 ∨ input.status = 307 ∨
        input.status = 301))
    (hne : input.requestValidationInput.route.operation.responses.length ≠ 0)
    (hlk : responsesLookup input.requestValidationInput.route.operation.responses
        input.status = some rref)
    (hv : rref.value = some response)
    (hx : (input.options.getD DefaultOptions).excludeResponseBody = false)
    (hc : response.content.length ≠ 0)
    (hct : contentGet response.content (headerGet input.header headerCT) = some mt)
    (hsch : mt.schema = some schema)
    (hb : bodyRead input.body = Except.error e) :
    ValidateResponse decode input =
      (Except.error ⟨"failed to read response body", some e⟩,
       { input with body := none }) := by
  cases ho : input.options with
  | none =>
    rw [ho] at hx
    simp only [Option.getD_none] at hx
    simp [ValidateResponse, validateRespTail, hm, hs, hne, hlk, hv, hx, hc, hct,
      hsch, hb, ho]
  | some o =>
    rw [ho] at hx
    simp only [Option.getD_some] at hx
    simp [ValidateResponse, validateRespTail, hm, hs, hne, hlk, hv, hx, hc, hct,
      hsch, hb, ho]

theorem validateResponse_read_failure_witness :
    bodyRead demoBrokenBodyInput.body = Except.error "boom" ∧
    ValidateResponse demoDecode demoBrokenBodyInput =
      (Except.error ⟨"failed to read response body", some "boom"⟩,
       { demoBrokenBodyInput with body := none }) :=
  ⟨rfl,
   validateResponse_read_failure demoDecode demoBrokenBodyInput
     ⟨some ⟨[("application/json", ⟨some demoSchema⟩)]⟩⟩
     ⟨[("application/json", ⟨some demoSchema⟩)]⟩
     ⟨some demoSchema⟩ demoSchema "boom"
     (by decide) (by decide) (by decide) rfl rfl rfl (by decide) rfl rfl rfl⟩

/-- The reason emitted by the diagnostic encoder in the empty-top-level-
reason parameter branch: the wrapped schema error reason when present and
non-empty, otherwise the literal "unknown". -/
def requestParamFallbackReason : Option GoError → String
  | some (GoError.schemaError sr) => if sr ≠ "" then sr else "unknown"
  | _ => "unknown"

/-- Claim C4 counterexample: a request error with the non-empty reason
"bad parameter" naming the parameter "id" is encoded with the literal
"request-parameter" in the last slot, not with the parameter name "id"
as the claim states. -/
theorem getValidationHeader_param_counterexample :
    getValidationHeader 200 "text/plain; charset=utf-8" "application/json"
      (ValidationError.requestError "bad parameter" (some ⟨"id"⟩) false none) =
      some "request-parameter:bad parameter:request-parameter" ∧
    ("request-parameter:bad parameter:request-parameter" : String) ≠
      "request-parameter:bad parameter:id" :=
  ⟨rfl, by decide⟩

/-- Claim C4 amended: for every request-validation error carrying a named
parameter the encoder emits request-parameter:reason:request-parameter
(the literal, not the name) when the top-level reason is non-empty, and
request-parameter:fallback:paramName when the top-level reason is empty,
the fallback being the wrapped schema error reason (or "unknown"). -/
theorem getValidationHeader_param_format (respStatus : Nat)
    (respCT reqCT reason : String) (p : Parameter) (hasBody : Bool)
    (werr : Option GoError) :
    getValidationHeader respStatus respCT reqCT
      (ValidationError.requestError reason (some p) hasBody werr) =
      some (if reason = "" then
              "request-parameter:" ++ requestParamFallbackReason werr ++ ":" ++ p.name
            else
              "request-parameter:" ++ reason ++ ":request-parameter") := by
  by_cases hr : reason = ""
  · subst hr
    rcases werr with _ | g
    · simp [getValidationHeader, requestParamFallbackReason]
    · rcases g with sr | m <;>
        simp [getValidationHeader, requestParamFallbackReason]
  · simp [getValidationHeader, hr]

/-! ### Handler-level fixtures -/

/-- A backend response used in handler runs. -/
def demoBackendResp : HttpResponse :=
  ⟨200, [("Content-Type", "application/json")], [123]⟩

/-- An inbound GET request. -/
def demoReq : HttpRequest := ⟨"GET", [("Content-Type", "application/json")]⟩

/-- A fully healthy environment: pool and conversion succeed, request
validation passes, the backend answers. -/
def demoEnvOk : HandlerEnv :=
  { poolGetOk := true
  , convertRequestOk := true
  , requestValidationError := none
  , backend := Except.ok demoBackendResp
  , shadowCheckError := none
  , decode := demoDecode }

/-- Claim C2 counterexample: in the proxy pipeline a response status that
the route does not document (and with no default entry) does not make
validation succeed when the route documents other statuses: it fails with
"status is not supported". -/
theorem pipeline_undocumented_status_counterexample :
    responsesGet demoRoute500.operation.responses demoBackendResp.status = none ∧
    responsesDefault demoRoute500.operation.responses = none ∧
    (ValidateResponse demoDecode (mkRespInput demoReq demoRoute500 demoBackendResp)).1 =
      Except.error ⟨"status is not supported", none⟩ :=
  ⟨rfl, rfl, rfl⟩

/-- Claim C2 amended: in the proxy pipeline (which always sets the
include-response-status option), a status with no exact entry and no
default entry passes response validation only when the route declares no
responses at all; with a non-empty declared response set, validation
fails with "status is not supported". -/
theorem pipeline_undocumented_status (req : HttpRequest) (r : Route)
    (resp : HttpResponse) (decode : DecodeBody)
    (hm : req.method ≠ "HEAD")
    (hs : ¬(resp.status = 304 ∨ resp.status = 308 ∨ resp.status = 307 ∨
        resp.status = 301))
    (hget : responsesGet r.operation.responses resp.status = none)
    (hdef : responsesDefault r.operation.responses = none) :
    (r.operation.responses.length = 0 →
      ValidateResponse decode (mkRespInput req r resp) =
        (Except.ok (), mkRespInput req r resp)) ∧
    (r.operation.responses.length ≠ 0 →
      (ValidateResponse decode (mkRespInput req r resp)).1 =
        Except.error ⟨"status is not supported", none⟩) := by
  constructor
  · intro hlen
    simp [ValidateResponse, mkRespInput, hm, hs, hlen]
  · intro hlen
    simp [ValidateResponse, validateRespTail, responsesLookup, mkRespInput,
      pipelineOptions, hm, hs, hget, hdef, hlen]

theorem pipeline_undocumented_status_witness :
    (demoReq.method ≠ "HEAD") ∧
    (¬(demoBackendResp.status = 304 ∨ demoBackendResp.status = 308 ∨
       demoBackendResp.status = 307 ∨ demoBackendResp.status = 301)) ∧
    responsesGet demoRoute500.operation.responses demoBackendResp.status = none ∧
    responsesDefault demoRoute500.operation.responses = none ∧
    demoRoute500.operation.responses.length ≠ 0 ∧
    (ValidateResponse demoDecode (mkRespInput demoReq demoRoute500 demoBackendResp)).1 =
      Except.error ⟨"status is not supported", none⟩ :=
  ⟨by decide, by decide, rfl, rfl, by decide,
   (pipeline_undocumented_status demoReq demoRoute500 demoBackendResp demoDecode
      (by decide) (by decide) rfl rfl).2 (by decide)⟩

/-- Claim C6: with both validation modes disabled and a healthy pool and
backend, the handler performs only the bare proxy call: the client
receives exactly the backend response (status, headers and body) and no
validation, diagnostic encoding or shadow check runs. -/
theorem handler_disabled_passthrough (cfg : APIFWConfiguration) (route : Option Route)
    (env : HandlerEnv) (req : HttpRequest) (resp : HttpResponse)
    (hpool : env.poolGetOk = true)
    (hreq : cfg.requestValidation = ValidationMode.disable)
    (hresp : cfg.responseValidation = ValidationMode.disable)
    (hb : env.backend = Except.ok resp) :
    openapiWafHandler cfg route env req =
      some { baseOutcome resp with proxied := true } := by
  simp [openapiWafHandler, hpool, hreq, hresp, hb, performProxy]

/-- Configuration with both modes disabled. -/
def cfgDisabled : APIFWConfiguration :=
  ⟨ValidationMode.disable, ValidationMode.disable, false, 403⟩

theorem handler_disabled_passthrough_witness :
    demoEnvOk.poolGetOk = true ∧
    cfgDisabled.requestValidation = ValidationMode.disable ∧
    cfgDisabled.responseValidation = ValidationMode.disable ∧
    demoEnvOk.backend = Except.ok demoBackendResp ∧
    openapiWafHandler cfgDisabled (some demoRoute200) demoEnvOk demoReq =
      some { baseOutcome demoBackendResp with proxied := true } :=
  ⟨rfl, rfl, rfl, rfl,
   handler_disabled_passthrough cfgDisabled (some demoRoute200) demoEnvOk demoReq
     demoBackendResp rfl rfl rfl rfl⟩

/-- Helper: a failing backend call makes the shared proxy tail return the
classified gateway response without running response validation. -/
theorem proxyAndValidate_transport_error (cfg : APIFWConfiguration)
    (route : Option Route) (env : HandlerEnv) (req : HttpRequest) (rv rl : Bool)
    (te : TransportError) (hb : env.backend = Except.error te) :
    proxyAndValidate cfg route env req rv rl =
      some { baseOutcome (performProxy env.backend).response with
             proxied := true, requestValidated := rv, requestErrorLogged := rl } := by
  cases te <;> simp [proxyAndValidate, performProxy, hb]

/-- Helper: under a failing backend call, any outcome of the main
pipeline that actually proxied carries the classified gateway response
and never ran response validation. -/
theorem pipelineRest_transport_error (cfg : APIFWConfiguration)
    (route : Option Route) (env : HandlerEnv) (req : HttpRequest)
    (te : TransportError) (o : HandlerOutcome)
    (hb : env.backend = Except.error te)
    (hrun : pipelineRest cfg route env req = some o)
    (hp : o.proxied = true) :
    o.clientResponse = (performProxy env.backend).response ∧
    o.responseValidated = false := by
  have hpv : ∀ rv rl : Bool, proxyAndValidate cfg route env req rv rl =
      some { baseOutcome (performProxy env.backend).response with
             proxied := true, requestValidated := rv, requestErrorLogged := rl } :=
    fun rv rl => proxyAndValidate_transport_error cfg route env req rv rl te hb
  by_cases hconv : env.convertRequestOk = true
  · cases hmode : cfg.requestValidation with
    | disable =>
      simp [pipelineRest, hconv, hmode, hpv] at hrun
      rw [← hrun]
      exact ⟨rfl, rfl⟩
    | log =>
      rcases herr : env.requestValidationError with _ | e <;>
        · simp [pipelineRest, hconv, hmode, herr, hpv] at hrun
          rw [← hrun]
          exact ⟨rfl, rfl⟩
    | block =>
      rcases herr : env.requestValidationError with _ | e
      · simp [pipelineRest, hconv, hmode, herr, hpv] at hrun
        rw [← hrun]
        exact ⟨rfl, rfl⟩
      · by_cases hah : cfg.addValidationStatusHeader = true
        · rcases hgv : getValidationHeader defaultRespStatus defaultRespContentType
              (headerGet req.headers headerCT) e with _ | vh <;>
            · simp [pipelineRest, hconv, hmode, herr, hah, hgv] at hrun
              rw [← hrun] at hp
              simp [baseOutcome] at hp
        · simp [pipelineRest, hconv, hmode, herr, hah] at hrun
          rw [← hrun] at hp
          simp [baseOutcome] at hp
  · simp [pipelineRest, hconv] at hrun
    rw [← hrun] at hp
    simp [baseOutcome] at hp

/-- The status code `performProxy` answers with for each transport error
cause: 504 for a dial timeout, 503 for connection exhaustion, 502 for
any other transport error. -/
def transportErrorStatus : TransportError → Nat
  | TransportError.errDialTimeout => 504
  | TransportError.errNoFreeConns => 503
  | TransportError.otherTransport _ => 502

/-- Claim C5: whenever the backend call itself fails, the client response
is the gateway page classified solely by the transport error cause (dial
timeout 504, connection exhaustion 503, anything else 502) for every
configuration of validation modes, and response validation never runs. -/
theorem handler_transport_error_classification (cfg : APIFWConfiguration)
    (route : Option Route) (env : HandlerEnv) (req : HttpRequest)
    (te : TransportError) (o : HandlerOutcome)
    (hb : env.backend = Except.error te)
    (hrun : openapiWafHandler cfg route env req = some o)
    (hp : o.proxied = true) :
    o.clientResponse = respondError (transportErrorStatus te) none ∧
    o.responseValidated = false := by
  have hpp : performProxy env.backend =
      ⟨respondError (transportErrorStatus te) none, true⟩ := by
    cases te with
    | errDialTimeout => rw [hb]; rfl
    | errNoFreeConns => rw [hb]; rfl
    | otherTransport m => rw [hb]; rfl
  by_cases hpool : env.poolGetOk = true
  · by_cases hdd : cfg.requestValidation = ValidationMode.disable ∧
        cfg.responseValidation = ValidationMode.disable
    · simp [openapiWafHandler, hpool, hdd.1, hdd.2, hpp] at hrun
      rw [← hrun]
      exact ⟨rfl, rfl⟩
    · rcases route with _ | r
      · by_cases hblk : cfg.requestValidation = ValidationMode.block ∨
            cfg.responseValidation = ValidationMode.block
        · by_cases hah : cfg.addValidationStatusHeader = true <;>
            · simp [openapiWafHandler, hpool, hdd, hblk, hah] at hrun
              rw [← hrun] at hp
              simp [baseOutcome] at hp
        · by_cases hlog : cfg.requestValidation = ValidationMode.log ∨
              cfg.responseValidation = ValidationMode.log
          · simp [openapiWafHandler, hpool, hdd, hblk, hlog, hpp] at hrun
            rw [← hrun]
            exact ⟨rfl, rfl⟩
          · exfalso
            rcases h1 : cfg.requestValidation <;> rcases h2 : cfg.responseValidation
            all_goals first
              | exact hdd ⟨h1, h2⟩
              | exact hblk (Or.inl h1)
              | exact hblk (Or.inr h2)
              | exact hlog (Or.inl h1)
              | exact hlog (Or.inr h2)
      · have hrun2 : pipelineRest cfg (some r) env req = some o := by
          simpa [openapiWafHandler, hpool, hdd] using hrun
        have h := pipelineRest_transport_error cfg (some r) env req te o hb hrun2 hp
        rw [hpp] at h
        exact h
  · simp [openapiWafHandler, hpool] at hrun
    rw [← hrun] at hp
    simp [baseOutcome] at hp

/-- Environment whose backend call fails with a dial timeout. -/
def demoEnvDialTimeout : HandlerEnv :=
  { demoEnvOk with backend := Except.error TransportError.errDialTimeout }

theorem handler_transport_error_classification_witness :
    demoEnvDialTimeout.backend = Except.error TransportError.errDialTimeout ∧
    openapiWafHandler cfgDisabled none demoEnvDialTimeout demoReq =
      some { baseOutcome (respondError 504 none) with proxied := true } ∧
    ({ baseOutcome (respondError 504 none) with
       proxied := true } : HandlerOutcome).proxied = true ∧
    ({ baseOutcome (respondError 504 none) with
       proxied := true } : HandlerOutcome).clientResponse = respondError 504 none ∧
    ({ baseOutcome (respondError 504 none) with
       proxied := true } : HandlerOutcome).responseValidated = false :=
  ⟨rfl, rfl, rfl,
   (handler_transport_error_classification cfgDisabled none demoEnvDialTimeout demoReq
      TransportError.errDialTimeout _ rfl rfl rfl).1,
   (handler_transport_error_classification cfgDisabled none demoEnvDialTimeout demoReq
      TransportError.errDialTimeout _ rfl rfl rfl).2⟩

/-- Claim C9: on an unmatched route, if either validation mode is Block
the handler answers immediately with the configured block status code
(with the fixed route-not-found diagnostic exactly when the diagnostic
header is enabled) and nothing else runs; otherwise, if either mode is
LogOnly, the proxy call is still performed and the shadow-API checker is
invoked, and a shadow-check error is only logged — the delivered
response is the same for every shadow-check outcome. -/
theorem handler_route_not_found_policy (cfg : APIFWConfiguration)
    (env : HandlerEnv) (req : HttpRequest) (hpool : env.poolGetOk = true) :
    ((cfg.requestValidation = ValidationMode.block ∨
        cfg.responseValidation = ValidationMode.block) →
      openapiWafHandler cfg none env req =
        some (baseOutcome (respondError cfg.customBlockStatusCode
          (if cfg.addValidationStatusHeader then some "request: route not found"
           else none)))) ∧
    (¬(cfg.requestValidation = ValidationMode.block ∨
        cfg.responseValidation = ValidationMode.block) →
      (cfg.requestValidation = ValidationMode.log ∨
        cfg.responseValidation = ValidationMode.log) →
      ∀ s : Option String,
        openapiWafHandler cfg none { env with shadowCheckError := s } req =
          some { baseOutcome (performProxy env.backend).response with
                 proxied := true, shadowChecked := true,
                 shadowErrorLogged := s.isSome }) := by
  constructor
  · intro hblk
    have hdd : ¬(cfg.requestValidation = ValidationMode.disable ∧
        cfg.responseValidation = ValidationMode.disable) := by
      rintro ⟨h1, h2⟩
      rcases hblk with h | h
      · rw [h1] at h; simp at h
      · rw [h2] at h; simp at h
    by_cases hah : cfg.addValidationStatusHeader = true <;>
      simp [openapiWafHandler, hpool, hdd, hblk, hah]
  · intro hblk hlog s
    have hdd : ¬(cfg.requestValidation = ValidationMode.disable ∧
        cfg.responseValidation = ValidationMode.disable) := by
      rintro ⟨h1, h2⟩
      rcases hlog with h | h
      · rw [h1] at h; simp at h
      · rw [h2] at h; simp at h
    simp [openapiWafHandler, hpool, hdd, hblk, hlog]

/-- Block-request configuration used in the unmatched-route witness. -/
def cfgBlockNF : APIFWConfiguration :=
  ⟨ValidationMode.block, ValidationMode.log, false, 403⟩

theorem handler_route_not_found_policy_witness :
    demoEnvOk.poolGetOk = true ∧
    cfgBlockNF.requestValidation = ValidationMode.block ∧
    openapiWafHandler cfgBlockNF none demoEnvOk demoReq =
      some (baseOutcome (respondError 403 none)) :=
  ⟨rfl, rfl, by
    have h := (handler_route_not_found_policy cfgBlockNF demoEnvOk demoReq rfl).1
      (Or.inl rfl)
    simpa using h⟩

/-- Helper: with a successful backend call, the shared proxy tail always
proxies, preserves the request-validation bookkeeping, and the client
keeps the backend response except when response validation is in block
mode and rejects it. -/
theorem proxyAndValidate_ok (cfg : APIFWConfiguration) (r : Route)
    (env : HandlerEnv) (req : HttpRequest) (resp : HttpResponse) (rv rl : Bool)
    (hb : env.backend = Except.ok resp) :
    ∃ o, proxyAndValidate cfg (some r) env req rv rl = some o ∧
      o.proxied = true ∧ o.requestValidated = rv ∧ o.requestErrorLogged = rl ∧
      ((cfg.responseValidation = ValidationMode.block ∧
          ∃ err, (ValidateResponse env.decode (mkRespInput req r resp)).1 =
            Except.error err) ∨
        o.clientResponse = resp) := by
  have hpr : performProxy env.backend = ⟨resp, false⟩ := by rw [hb]; rfl
  cases hrv : cfg.responseValidation with
  | disable =>
    have heq : proxyAndValidate cfg (some r) env req rv rl =
        some { baseOutcome resp with
               proxied := true
               requestValidated := rv
               requestErrorLogged := rl } := by
      simp [proxyAndValidate, hpr, hrv]
    exact ⟨_, heq, rfl, rfl, rfl, Or.inr rfl⟩
  | block =>
    rcases hvr : (ValidateResponse env.decode (mkRespInput req r resp)).1 with err | u
    · by_cases hah : cfg.addValidationStatusHeader = true
      · rcases hgv : getValidationHeader resp.status (headerGet resp.headers headerCT)
            (headerGet req.headers headerCT)
            (ValidationError.responseError err.reason err.err) with _ | vh
        · have heq : proxyAndValidate cfg (some r) env req rv rl =
              some { baseOutcome (respondError cfg.customBlockStatusCode none) with
                     proxied := true, requestValidated := rv,
                     requestErrorLogged := rl, responseValidated := true,
                     responseErrorLogged := true, diagnosticEncoded := true } := by
            simp [proxyAndValidate, hpr, hrv, hvr, hah, hgv]
          exact ⟨_, heq, rfl, rfl, rfl, Or.inl ⟨rfl, err, rfl⟩⟩
        · have heq : proxyAndValidate cfg (some r) env req rv rl =
              some { baseOutcome (respondError cfg.customBlockStatusCode (some vh)) with
                     proxied := true, requestValidated := rv,
                     requestErrorLogged := rl, responseValidated := true,
                     responseErrorLogged := true, diagnosticEncoded := true } := by
            simp [proxyAndValidate, hpr, hrv, hvr, hah, hgv]
          exact ⟨_, heq, rfl, rfl, rfl, Or.inl ⟨rfl, err, rfl⟩⟩
      · have heq : proxyAndValidate cfg (some r) env req rv rl =
            some { baseOutcome (respondError cfg.customBlockStatusCode none) with
                   proxied := true, requestValidated := rv, requestErrorLogged := rl,
                   responseValidated := true, responseErrorLogged := true } := by
          simp [proxyAndValidate, hpr, hrv, hvr, hah]
        exact ⟨_, heq, rfl, rfl, rfl, Or.inl ⟨rfl, err, rfl⟩⟩
    · have heq : proxyAndValidate cfg (some r) env req rv rl =
          some { baseOutcome resp with
                 proxied := true, requestValidated := rv,
                 requestErrorLogged := rl, responseValidated := true } := by
        simp [proxyAndValidate, hpr, hrv, hvr]
      exact ⟨_, heq, rfl, rfl, rfl, Or.inr rfl⟩
  | log =>
    rcases hvr : (ValidateResponse env.decode (mkRespInput req r resp)).1 with err | u
    · have heq : proxyAndValidate cfg (some r) env req rv rl =
          some { baseOutcome resp with
                 proxied := true, requestValidated := rv,
                 requestErrorLogged := rl, responseValidated := true,
                 responseErrorLogged := true } := by
        simp [proxyAndValidate, hpr, hrv, hvr]
      exact ⟨_, heq, rfl, rfl, rfl, Or.inr rfl⟩
    · have heq : proxyAndValidate cfg (some r) env req rv rl =
          some { baseOutcome resp with
                 proxied := true, requestValidated := rv,
                 requestErrorLogged := rl, responseValidated := true } := by
        simp [proxyAndValidate, hpr, hrv, hvr]
      exact ⟨_, heq, rfl, rfl, rfl, Or.inr rfl⟩

/-- LogOnly-request, Block-response configuration. -/
def cfgLogBlock : APIFWConfiguration :=
  ⟨ValidationMode.log, ValidationMode.block, false, 403⟩

/-- LogOnly-request, LogOnly-response configuration. -/
def cfgLogLog : APIFWConfiguration :=
  ⟨ValidationMode.log, ValidationMode.log, false, 403⟩

/-- A request-body validation failure as reported by the request
validator. -/
def demoReqErr : ValidationError :=
  ValidationError.requestError "bad body" none true none

/-- Healthy environment whose request validation fails. -/
def demoEnvReqErr : HandlerEnv :=
  { demoEnvOk with requestValidationError := some demoReqErr }

/-- Claim C8 counterexample: with request validation in log-only mode and
response validation in block mode, an invalid request is proxied but the
client receives the block page (403), not the backend response (200),
because the backend answer itself fails response validation. -/
theorem handler_logonly_request_counterexample :
    cfgLogBlock.requestValidation = ValidationMode.log ∧
    demoEnvReqErr.requestValidationError = some demoReqErr ∧
    demoEnvReqErr.backend = Except.ok demoBackendResp ∧
    openapiWafHandler cfgLogBlock (some demoRoute500) demoEnvReqErr demoReq =
      some { baseOutcome (respondError 403 none) with
             proxied := true, requestValidated := true, requestErrorLogged := true,
             responseValidated := true, responseErrorLogged := true } ∧
    (respondError 403 none).status ≠ demoBackendResp.status :=
  ⟨rfl, rfl, rfl, rfl, by decide⟩

/-- Claim C8 amended: with request validation in log-only mode, a request
failing request validation is still proxied and its failure logged; the
client receives the backend response unchanged unless response validation
is in block mode and rejects that response. -/
theorem handler_logonly_request_proceeds (cfg : APIFWConfiguration) (r : Route)
    (env : HandlerEnv) (req : HttpRequest) (resp : HttpResponse)
    (e : ValidationError)
    (hpool : env.poolGetOk = true)
    (hconv : env.convertRequestOk = true)
    (hmode : cfg.requestValidation = ValidationMode.log)
    (herr : env.requestValidationError = some e)
    (hb : env.backend = Except.ok resp) :
    ∃ o, openapiWafHandler cfg (some r) env req = some o ∧
      o.proxied = true ∧ o.requestValidated = true ∧ o.requestErrorLogged = true ∧
      ((cfg.responseValidation = ValidationMode.block ∧
          ∃ err, (ValidateResponse env.decode (mkRespInput req r resp)).1 =
            Except.error err) ∨
        o.clientResponse = resp) := by
  have hdd : ¬(cfg.requestValidation = ValidationMode.disable ∧
      cfg.responseValidation = ValidationMode.disable) := by
    rintro ⟨h1, _⟩
    rw [hmode] at h1
    simp at h1
  have hh : openapiWafHandler cfg (some r) env req =
      proxyAndValidate cfg (some r) env req true true := by
    simp [openapiWafHandler, pipelineRest, hpool, hdd, hconv, hmode, herr]
  rw [hh]
  exact proxyAndValidate_ok cfg r env req resp true true hb

theorem handler_logonly_request_proceeds_witness :
    demoEnvReqErr.poolGetOk = true ∧
    demoEnvReqErr.convertRequestOk = true ∧
    cfgLogLog.requestValidation = ValidationMode.log ∧
    demoEnvReqErr.requestValidationError = some demoReqErr ∧
    demoEnvReqErr.backend = Except.ok demoBackendResp ∧
    ∃ o, openapiWafHandler cfgLogLog (some demoRoute200) demoEnvReqErr demoReq =
        some o ∧
      o.proxied = true ∧ o.requestValidated = true ∧ o.requestErrorLogged = true ∧
      ((cfgLogLog.responseValidation = ValidationMode.block ∧
          ∃ err, (ValidateResponse demoEnvReqErr.decode
              (mkRespInput demoReq demoRoute200 demoBackendResp)).1 =
            Except.error err) ∨
        o.clientResponse = demoBackendResp) :=
  ⟨rfl, rfl, rfl, rfl, rfl,
   handler_logonly_request_proceeds cfgLogLog demoRoute200 demoEnvReqErr demoReq
     demoBackendResp demoReqErr rfl rfl rfl rfl rfl⟩

end ApiFirewall
